import Mathlib

/-!
Shallow embedding of the entra-mcp-server core (validation layer, error
classifier, retry/backoff engine and query builders) and proofs about it.

Sources embedded:
- src/utils/validation.ts   (validators, escapeODataString, validateResponse)
- src/utils/error-handler.ts (ErrorCode, MCPError, handleGraphError)
- src/utils/retry.ts        (isRetryable, calculateDelay, getRetryAfterDelay,
                             retryWithBackoff)
- src/tools/users.ts, groups.ts, applications.ts, devices.ts (query builders)

JS strings are Lean `String`s, JS numbers are `Rat` (the claims never touch
NaN/Infinity or rounding), untyped MCP arguments are the `JsVal` universe,
and the ambient runtime (network, Date parsing, Math.random, Date.now) is
passed in as explicit function arguments.
-/

namespace EntraSpec

/-- The single-quote character (code point 39). -/
def squote : Char := Char.ofNat 39

/-- One single quote as a string, used when building OData filter text. -/
def sq : String := String.singleton squote

/-- JS whitespace as consumed by `String.prototype.trim` (the code points the
repository can realistically see; the claims only need blank vs non-blank). -/
def jsWs (c : Char) : Bool :=
  c == ' ' || c == Char.ofNat 9 || c == Char.ofNat 10 || c == Char.ofNat 11 ||
  c == Char.ofNat 12 || c == Char.ofNat 13 || c == Char.ofNat 160 || c == Char.ofNat 0xfeff

/-- Strip JS whitespace from both ends of a character list. -/
def jsTrimList (cs : List Char) : List Char :=
  ((cs.dropWhile jsWs).reverse.dropWhile jsWs).reverse

/-- Model of `String.prototype.trim`. -/
def jsTrim (s : String) : String := String.mk (jsTrimList s.toList)

/-- Model of `String.prototype.toLowerCase` (per-character lowering; the
denylist tokens are ASCII so this agrees with JS on every relevant input). -/
def lowerStr (s : String) : String := String.mk (s.toList.map Char.toLower)

/-- Prefix test: `listStartsWith hay need` holds when `need` is a prefix of `hay`. -/
def listStartsWith : List Char → List Char → Bool
  | _, [] => true
  | [], _ :: _ => false
  | a :: as, b :: bs => a == b && listStartsWith as bs

/-- Substring search, modelling `String.prototype.includes`. -/
def containsSub : List Char → List Char → Bool
  | [], need => need.isEmpty
  | a :: t, need => listStartsWith (a :: t) need || containsSub t need

/-- Substring test: `jsIncludes s sub` models `s.includes(sub)`. -/
def jsIncludes (s sub : String) : Bool := containsSub s.toList sub.toList

/-- src/utils/error-handler.ts: the `ErrorCode` enum. -/
inductive ErrorCode where
  | INTERNAL_ERROR
  | UNKNOWN_ERROR
  | GRAPH_API_ERROR
  | INVALID_PARAMETER
  | MISSING_PARAMETER
  | UNAUTHORIZED
  | FORBIDDEN
  | NOT_FOUND
  | INVALID_RESPONSE
  | RATE_LIMITED
  | NETWORK_ERROR
  | TIMEOUT
  deriving DecidableEq, Repr

/-- src/utils/error-handler.ts: the `MCPError` class. The `details` record is
not modelled: no claim observes it, only `message` and `code` are. -/
structure MCPError where
  message : String
  code : ErrorCode
  deriving DecidableEq, Repr

/-- Observe the error code of a fallible result (`none` on success). -/
def errCode? {α : Type} : Except MCPError α → Option ErrorCode
  | .error e => some e.code
  | .ok _ => none

/-- Observe the error message of a fallible result (`none` on success). -/
def errMsg? {α : Type} : Except MCPError α → Option String
  | .error e => some e.message
  | .ok _ => none

/-- Untyped JS values as they arrive from the MCP argument bag. -/
inductive JsVal where
  | undef
  | null
  | num (q : Rat)
  | str (s : String)
  | bool (b : Bool)
  | arr (xs : List JsVal)

/-- JS truthiness for the modelled values. -/
def jsTruthy : JsVal → Bool
  | .undef => false
  | .null => false
  | .num q => q != 0
  | .str s => s != ""
  | .bool b => b
  | .arr _ => true

/-! ## Validation layer (src/utils/validation.ts) -/

/-- Character-level body of `escapeODataString`: each single quote becomes two,
every other character is kept. -/
def escapeList : List Char → List Char
  | [] => []
  | c :: cs => (if c == squote then [squote, squote] else [c]) ++ escapeList cs

/-- Source `escapeODataString(input)`: `input.replace(/'/g, "''")`. -/
def escapeODataString (input : String) : String := String.mk (escapeList input.toList)

/-- Number of single quotes in a string. -/
def countQuotes (s : String) : Nat := s.toList.count squote

/-- Source `validateString(value, fieldName, allowEmpty)`. -/
def validateString (value : JsVal) (fieldName : String) (allowEmpty : Bool) :
    Except MCPError String :=
  match value with
  | .undef => .error ⟨fieldName ++ " is required", .INVALID_PARAMETER⟩
  | .null => .error ⟨fieldName ++ " is required", .INVALID_PARAMETER⟩
  | .str s =>
      if !allowEmpty && jsTrim s == "" then
        .error ⟨fieldName ++ " cannot be empty", .INVALID_PARAMETER⟩
      else .ok s
  | _ => .error ⟨fieldName ++ " must be a string", .INVALID_PARAMETER⟩

/-- Source `validateTop(value, defaultValue = 100, maxValue = 999)`.
`Number.isInteger` is `q.den = 1` on the rational model. -/
def validateTop (value : JsVal) (defaultValue : Int) (maxValue : Int) :
    Except MCPError Int :=
  match value with
  | .undef => .ok defaultValue
  | .null => .ok defaultValue
  | .num q =>
      if q.den ≠ 1 then .error ⟨"top must be an integer", .INVALID_PARAMETER⟩
      else if q.num < 1 then .error ⟨"top must be at least 1", .INVALID_PARAMETER⟩
      else if q.num > maxValue then
        .error ⟨"top cannot exceed " ++ toString maxValue, .INVALID_PARAMETER⟩
      else .ok q.num
  | _ => .error ⟨"top must be a number", .INVALID_PARAMETER⟩

/-- Source `validateStringArray(value, fieldName)`. -/
def validateStringArray (value : JsVal) (fieldName : String) :
    Except MCPError (Option (List String)) :=
  match value with
  | .undef => .ok none
  | .null => .ok none
  | .arr xs =>
      if xs.all (fun v => match v with | .str _ => true | _ => false) then
        if xs.length = 0 then .ok none
        else .ok (some (xs.filterMap (fun v => match v with | .str s => some s | _ => none)))
      else .error ⟨"All items in " ++ fieldName ++ " must be strings", .INVALID_PARAMETER⟩
  | _ => .error ⟨fieldName ++ " must be an array", .INVALID_PARAMETER⟩

/-- The denylisted OData system-query tokens of `validateFilter`. -/
def dangerous : List String := ["$count", "$search", "$format", "$compute", "$apply"]

/-- Source `validateFilter(value)`: absent or blank input yields no
value; the denylist is checked, case-insensitively, as a substring, throwing
on the first match of the loop (modelled with `find?`). -/
def validateFilter (value : JsVal) : Except MCPError (Option String) :=
  match value with
  | .undef => .ok none
  | .null => .ok none
  | .str s =>
      if jsTrim s == "" then .ok none
      else
        match dangerous.find? (fun d => jsIncludes (lowerStr s) (lowerStr d)) with
        | some d => .error ⟨"filter cannot contain " ++ d, .INVALID_PARAMETER⟩
        | none => .ok (some s)
  | _ => .error ⟨"filter must be a string", .INVALID_PARAMETER⟩

/-- Page envelope returned by the remote API: `value` is `none` when the
envelope has no `value` field and `some xs` when it holds an array. Entities
are uninterpreted documents, modelled as strings. (A `value` field holding a
non-array is rejected by `validateResponse`; it is not exercised by any
claim and not representable here.) -/
structure GraphResponse where
  value : Option (List String)
  deriving DecidableEq, Repr

/-- Source `validateResponse(response, expectArray = true)`. The
model's responses are always objects, so only the array check is live. -/
def validateResponse (response : GraphResponse) (expectArray : Bool) :
    Except MCPError GraphResponse :=
  if expectArray then
    match response.value with
    | some _ => .ok response
    | none => .error ⟨"Response does not contain expected value array", .INVALID_RESPONSE⟩
  else .ok response

/-! ## Error classifier (src/utils/error-handler.ts) -/

/-- The vendor error envelope `{ code, message }` inside a failure response.
The `innerError` payload is only copied into `details`, which no claim
observes, so it is not modelled. -/
structure GraphErrorEnvelope where
  code : Option String
  message : String
  deriving DecidableEq, Repr

/-- A `retry-after` header value: JS `number` or `string`. -/
inductive HeaderVal where
  | num (n : Int)
  | str (s : String)
  deriving DecidableEq, Repr

/-- A raw (non-`MCPError`) failure as observed by `handleGraphError` and the
retry engine through optional chaining: `error.response.error`,
`error.response.status`, `error.response.headers['retry-after']`,
`error.code`, `error.message`. An absent `response` object and a `response`
with absent fields are indistinguishable to the source and share `none`. -/
structure RawError where
  respError : Option GraphErrorEnvelope
  respStatus : Option Nat
  respRetryAfter : Option HeaderVal
  code : Option String
  message : Option String
  deriving DecidableEq, Repr

/-- A thrown JS value in this codebase: an `MCPError` or a raw failure. -/
inductive Thrown where
  | mcp (e : MCPError)
  | raw (e : RawError)
  deriving DecidableEq, Repr

/-- Source `mapGraphErrorCode(graphCode)`. -/
def mapGraphErrorCode (graphCode : String) : ErrorCode :=
  if graphCode = "Unauthorized" ∨ graphCode = "AuthenticationFailed" ∨
      graphCode = "AuthenticationCanceled" then .UNAUTHORIZED
  else if graphCode = "Forbidden" ∨ graphCode = "AuthorizationFailed" then .FORBIDDEN
  else if graphCode = "Request_ResourceNotFound" ∨ graphCode = "ResourceNotFound" ∨
      graphCode = "UserNotFound" ∨ graphCode = "GroupNotFound" ∨
      graphCode = "ApplicationNotFound" then .NOT_FOUND
  else if graphCode = "TooManyRequests" ∨ graphCode = "RateLimitExceeded" ∨
      graphCode = "ThrottledRequest" then .RATE_LIMITED
  else if graphCode = "BadRequest" ∨ graphCode = "InvalidRequest" ∨
      graphCode = "InvalidFilter" ∨ graphCode = "InvalidQueryParameter" then .INVALID_PARAMETER
  else if graphCode = "Timeout" ∨ graphCode = "RequestTimeout" then .TIMEOUT
  else .GRAPH_API_ERROR

/-- Tail of `handleGraphError`: the network-error check followed by the
generic fallback (`error.message || 'An unexpected error occurred'`; an empty
message string is falsy in JS). -/
def handleGraphErrorRest (e : RawError) : MCPError :=
  match e.code with
  | some c =>
      if c = "ECONNREFUSED" ∨ c = "ENOTFOUND" ∨ c = "ETIMEDOUT" then
        ⟨"Network error connecting to Microsoft Graph API", .NETWORK_ERROR⟩
      else
        ⟨(match e.message with
          | some m => if m ≠ "" then m else "An unexpected error occurred"
          | none => "An unexpected error occurred"), .UNKNOWN_ERROR⟩
  | none =>
      ⟨(match e.message with
        | some m => if m ≠ "" then m else "An unexpected error occurred"
        | none => "An unexpected error occurred"), .UNKNOWN_ERROR⟩

/-- Source `handleGraphError(error)` on a raw failure. It returns the `MCPError` the
source throws. Note the truthiness checks: `error.response.error` fires when
the envelope is present, `error.response.status` only when the status is a
truthy number (non-zero), and a status outside the handled set (401, 403,
404, 429, ≥500) falls through to the network/generic checks. -/
def handleGraphErrorRaw (e : RawError) : MCPError :=
  match e.respError with
  | some ge =>
      ⟨"Microsoft Graph API Error: " ++ ge.message,
        mapGraphErrorCode (ge.code.getD "")⟩
  | none =>
      match e.respStatus with
      | some status =>
          if status ≠ 0 then
            if status = 401 then ⟨"Authentication or authorization failed", .UNAUTHORIZED⟩
            else if status = 403 then ⟨"Authentication or authorization failed", .FORBIDDEN⟩
            else if status = 404 then ⟨"Resource not found", .NOT_FOUND⟩
            else if status = 429 then ⟨"Too many requests - rate limit exceeded", .RATE_LIMITED⟩
            else if status ≥ 500 then ⟨"Microsoft Graph API server error", .GRAPH_API_ERROR⟩
            else handleGraphErrorRest e
          else handleGraphErrorRest e
      | none => handleGraphErrorRest e

/-- Source `handleGraphError(error)` on any thrown value. When handed an `MCPError`
(as the tool catch blocks do for validation failures) none of the
optional-chained `response` accesses fire and `error.code` is an `ErrorCode`
enum string, never a network identifier, so the generic fallback wraps the
original message under `UNKNOWN_ERROR`. -/
def handleGraphError : Thrown → MCPError
  | .raw e => handleGraphErrorRaw e
  | .mcp m =>
      ⟨if m.message ≠ "" then m.message else "An unexpected error occurred", .UNKNOWN_ERROR⟩

/-! ## Retry engine (src/utils/retry.ts) -/

/-- Options record `RetryOptions` with every field present, as after the
`{...DEFAULT_RETRY_OPTIONS, ...options}` merge in `retryWithBackoff`. -/
structure RetryOptions where
  maxRetries : Nat
  baseDelay : Rat
  maxDelay : Rat
  useJitter : Bool
  retryOnStatus : List Nat
  shouldRetry : Thrown → Bool

/-- Source `DEFAULT_RETRY_OPTIONS`. -/
def DEFAULT_RETRY_OPTIONS : RetryOptions :=
  ⟨3, 1000, 30000, true, [429, 500, 502, 503, 504], fun _ => false⟩

/-- Source `calculateDelay(attempt, baseDelay, maxDelay, useJitter)`,
with the `Math.random()` draw passed in as `rand`. -/
def calculateDelay (attempt : Nat) (baseDelay maxDelay : Rat) (useJitter : Bool)
    (rand : Rat) : Rat :=
  let exponentialDelay := baseDelay * 2 ^ attempt
  let jitter := if useJitter then (rand - 1/2) * (1/2) * exponentialDelay else 0
  min (exponentialDelay + jitter) maxDelay

/-- Network-identifier part of `isRetryable`. -/
def isNetworkRetryCode (e : RawError) : Bool :=
  match e.code with
  | some c =>
      c == "ECONNRESET" || c == "ECONNREFUSED" || c == "ETIMEDOUT" ||
      c == "ENOTFOUND" || c == "EAI_AGAIN"
  | none => false

/-- Source `isRetryable(error, options)`. For an `MCPError` the
status check sees no `response` and the network check compares the
`ErrorCode` enum string against identifiers it can never equal, so only the
custom predicate and the `RATE_LIMITED`/`TIMEOUT` codes can fire. A truthy
(non-zero) HTTP status decides retryability by set membership alone. -/
def isRetryable (e : Thrown) (options : RetryOptions) : Bool :=
  if options.shouldRetry e then true
  else
    match e with
    | .mcp m => m.code == .RATE_LIMITED || m.code == .TIMEOUT
    | .raw r =>
        match r.respStatus with
        | some status =>
            if status ≠ 0 then decide (status ∈ options.retryOnStatus)
            else isNetworkRetryCode r
        | none => isNetworkRetryCode r

/-- JS `parseInt(s, 10)`: skip leading whitespace, optional sign, then the
longest run of decimal digits; `none` models `NaN`. -/
def jsParseInt (s : String) : Option Int :=
  let cs := s.toList.dropWhile (fun c => jsWs c)
  let signRest : Int × List Char :=
    match cs with
    | c :: t => if c == Char.ofNat 45 then (-1, t) else if c == '+' then (1, t) else (1, cs)
    | [] => (1, cs)
  let digits := signRest.2.takeWhile (fun c => c.isDigit)
  if digits.isEmpty then none
  else some (signRest.1 * (digits.foldl (fun acc c => acc * 10 + (c.toNat - 48)) 0 : Nat))

/-- Source `getRetryAfterDelay(error)`, with the JS `Date` runtime
passed in: `dateParse s` is `new Date(s).getTime()` (`none` for an invalid
date) and `now` is `Date.now()`. An `MCPError` has no `response`, and a
falsy header value (absent, `0`, or the empty string) yields `null`. -/
def getRetryAfterDelay (dateParse : String → Option Int) (now : Int) :
    Thrown → Option Int
  | .mcp _ => none
  | .raw r =>
      match r.respRetryAfter with
      | none => none
      | some (.num n) => if n = 0 then none else some (n * 1000)
      | some (.str s) =>
          if s = "" then none
          else
            match jsParseInt s with
            | some seconds => some (seconds * 1000)
            | none =>
                match dateParse s with
                | some t => some (max 0 (t - now))
                | none => none

/-- The delay chosen before the next attempt in `retryWithBackoff`: a
server-provided retry-after hint when present, otherwise the exponential
backoff of `calculateDelay`. -/
def nextDelay (opts : RetryOptions) (dateParse : String → Option Int) (now : Int)
    (rand : Nat → Rat) (attempt : Nat) (e : Thrown) : Rat :=
  match getRetryAfterDelay dateParse now e with
  | some d => (d : Rat)
  | none => calculateDelay attempt opts.baseDelay opts.maxDelay opts.useJitter (rand attempt)

/-- Outcome of one invocation of the wrapped operation. -/
inductive Outcome (α : Type) where
  | ok (a : α)
  | err (e : Thrown)

/-- Surfacing of a failure by `retryWithBackoff` (both on a non-retryable
error and after the budget is exhausted): an `MCPError` is rethrown as-is,
anything else goes through `handleGraphError`. -/
def surfaceRetryError : Thrown → MCPError
  | .mcp m => m
  | .raw r => handleGraphErrorRaw r

/-- Result of a full `retryWithBackoff` run: the value or final classified
error, the number of invocations of the operation, and the slept delays. -/
structure RetryResult (α : Type) where
  result : Except MCPError α
  invocations : Nat
  sleeps : List Rat

/-- The retry loop of `retryWithBackoff`, recursing on the number of attempts
still allowed after the current one (`remaining = maxRetries - attempt`).
When `remaining = 0` the current attempt is the last: on failure the loop
breaks and surfaces the error without a retryability check. Otherwise a
non-retryable failure surfaces immediately and a retryable one sleeps
`nextDelay` and continues. The operation `fn` is indexed by the attempt
number to model successive invocations of the zero-argument closure. -/
def retryAux {α : Type} (opts : RetryOptions) (fn : Nat → Outcome α)
    (dateParse : String → Option Int) (now : Int) (rand : Nat → Rat) :
    Nat → Nat → Nat → List Rat → RetryResult α
  | attempt, 0, invocs, sleeps =>
      match fn attempt with
      | .ok a => ⟨.ok a, invocs + 1, sleeps⟩
      | .err e => ⟨.error (surfaceRetryError e), invocs + 1, sleeps⟩
  | attempt, remaining + 1, invocs, sleeps =>
      match fn attempt with
      | .ok a => ⟨.ok a, invocs + 1, sleeps⟩
      | .err e =>
          if isRetryable e opts then
            retryAux opts fn dateParse now rand (attempt + 1) remaining (invocs + 1)
              (sleeps ++ [nextDelay opts dateParse now rand attempt e])
          else ⟨.error (surfaceRetryError e), invocs + 1, sleeps⟩

/-- Source `retryWithBackoff(fn, options)`: attempts are numbered
`0..maxRetries` inclusive. -/
def retryWithBackoff {α : Type} (opts : RetryOptions)
    (fn : Nat → Outcome α) (dateParse : String → Option Int) (now : Int)
    (rand : Nat → Rat) : RetryResult α :=
  retryAux opts fn dateParse now rand 0 opts.maxRetries 0 []

/-! ## Query builders (src/tools/users.ts, groups.ts, applications.ts,
devices.ts) -/

/-- The request descriptor a builder assembles through the fluent client API
(`client.api(path).top(..).filter(..).select(..).orderby(..)`). -/
structure GraphRequest where
  path : String
  topParam : Option Int
  filterParam : Option String
  selectParam : Option String
  orderbyParam : Option JsVal

/-- Fluent client entry `client.api(path)`: a fresh request with no modifiers. -/
def apiRequest (path : String) : GraphRequest := ⟨path, none, none, none, none⟩

/-- Fluent `request.top(t)`. -/
def GraphRequest.top (r : GraphRequest) (t : Int) : GraphRequest :=
  ⟨r.path, some t, r.filterParam, r.selectParam, r.orderbyParam⟩

/-- Fluent `request.filter(f)`. -/
def GraphRequest.filter (r : GraphRequest) (f : String) : GraphRequest :=
  ⟨r.path, r.topParam, some f, r.selectParam, r.orderbyParam⟩

/-- Fluent `request.select(s)` (the already-joined comma-separated field list). -/
def GraphRequest.select (r : GraphRequest) (s : String) : GraphRequest :=
  ⟨r.path, r.topParam, r.filterParam, some s, r.orderbyParam⟩

/-- Fluent `request.orderby(o)`; the source passes `options.orderBy` through without
validation, so the stored value is untyped. -/
def GraphRequest.orderby (r : GraphRequest) (o : JsVal) : GraphRequest :=
  ⟨r.path, r.topParam, r.filterParam, r.selectParam, some o⟩

/-- The `{top?, filter?, select?, orderBy?}` options bag of the list
operations, as untyped values from the MCP argument bag. -/
structure QueryOptions where
  top : JsVal
  filter : JsVal
  select : JsVal
  orderBy : JsVal

/-- An options bag with every field absent. -/
def emptyOptions : QueryOptions := ⟨.undef, .undef, .undef, .undef⟩

/-- Shared body of `listUsers` / `listGroups` / `listApplications` /
`listServicePrincipals` / `listDevices` (the five are line-for-line
identical except for the collection path, and for `listUsers` additionally
calling `validateResponse` before unwrapping — `checkEnvelope`). Returns the
result of one invocation of the closure handed to `retryWithBackoff`,
together with the number of network calls it made (0 when a validator threw
first, per the catch-block position after the `await request.get()`).
Any `MCPError` thrown inside the `try` is fed to `handleGraphError` by the
`catch` block, exactly as in the source. -/
def listCollectionBody (path : String) (checkEnvelope : Bool)
    (net : GraphRequest → Except RawError GraphResponse)
    (options : QueryOptions) : Except MCPError (List String) × Nat :=
  match validateTop options.top 100 999 with
  | .error e => (.error (handleGraphError (.mcp e)), 0)
  | .ok top =>
      let r1 := if top ≠ 0 then (apiRequest path).top top else apiRequest path
      match validateFilter options.filter with
      | .error e => (.error (handleGraphError (.mcp e)), 0)
      | .ok filterOpt =>
          let r2 := match filterOpt with
                    | some f => if f ≠ "" then r1.filter f else r1
                    | none => r1
          match validateStringArray options.select "select" with
          | .error e => (.error (handleGraphError (.mcp e)), 0)
          | .ok selOpt =>
              let r3 := match selOpt with
                        | some sel =>
                            if sel.length > 0 then r2.select (String.intercalate "," sel)
                            else r2
                        | none => r2
              let r4 := if jsTruthy options.orderBy then r3.orderby options.orderBy else r3
              match net r4 with
              | .error raw => (.error (handleGraphError (.raw raw)), 1)
              | .ok response =>
                  if checkEnvelope then
                    match validateResponse response true with
                    | .error e => (.error (handleGraphError (.mcp e)), 1)
                    | .ok resp => (.ok (resp.value.getD []), 1)
                  else (.ok (response.value.getD []), 1)

/-- Body of `UserTools.listUsers` (calls `validateResponse`). -/
def listUsersBody (net : GraphRequest → Except RawError GraphResponse)
    (options : QueryOptions) : Except MCPError (List String) × Nat :=
  listCollectionBody "/users" true net options

/-- Body of `GroupTools.listGroups` (no `validateResponse`). -/
def listGroupsBody (net : GraphRequest → Except RawError GraphResponse)
    (options : QueryOptions) : Except MCPError (List String) × Nat :=
  listCollectionBody "/groups" false net options

/-- Body of `ApplicationTools.listApplications` (no `validateResponse`). -/
def listApplicationsBody (net : GraphRequest → Except RawError GraphResponse)
    (options : QueryOptions) : Except MCPError (List String) × Nat :=
  listCollectionBody "/applications" false net options

/-- Body of `ApplicationTools.listServicePrincipals` (no `validateResponse`). -/
def listServicePrincipalsBody (net : GraphRequest → Except RawError GraphResponse)
    (options : QueryOptions) : Except MCPError (List String) × Nat :=
  listCollectionBody "/servicePrincipals" false net options

/-- Body of `DeviceTools.listDevices` (no `validateResponse`). -/
def listDevicesBody (net : GraphRequest → Except RawError GraphResponse)
    (options : QueryOptions) : Except MCPError (List String) × Nat :=
  listCollectionBody "/devices" false net options

/-- Body of `GroupTools.getUserGroups(userId, top = 50)`: validates the
anchor id and `top` (default 50), queries `/users/{id}/memberOf`, unwraps
the envelope with `response.value || []`. -/
def getUserGroupsBody (net : GraphRequest → Except RawError GraphResponse)
    (userId : JsVal) (top : JsVal) : Except MCPError (List String) × Nat :=
  match validateString userId "userId" false with
  | .error e => (.error (handleGraphError (.mcp e)), 0)
  | .ok validatedUserId =>
      match validateTop top 50 999 with
      | .error e => (.error (handleGraphError (.mcp e)), 0)
      | .ok validatedTop =>
          match net ((apiRequest ("/users/" ++ validatedUserId ++ "/memberOf")).top validatedTop) with
          | .error raw => (.error (handleGraphError (.raw raw)), 1)
          | .ok response => (.ok (response.value.getD []), 1)

/-- One body into the `Outcome` the retry engine sees: the catch block has
already turned every failure into an `MCPError`, so the thrown value is
always `Thrown.mcp`. -/
def outcomeOfBody {α : Type} : Except MCPError α × Nat → Outcome α
  | (.ok a, _) => .ok a
  | (.error m, _) => .err (.mcp m)

/-- A builder operation end to end: the body wrapped in `retryWithBackoff`
with the default options, the network oracle indexed by attempt number. -/
def runBuilderOp {α : Type}
    (body : (GraphRequest → Except RawError GraphResponse) → Except MCPError α × Nat)
    (net : Nat → GraphRequest → Except RawError GraphResponse)
    (dateParse : String → Option Int) (now : Int) (rand : Nat → Rat) :
    RetryResult α :=
  retryWithBackoff DEFAULT_RETRY_OPTIONS (fun i => outcomeOfBody (body (net i)))
    dateParse now rand

/-- Total number of network calls made across the invocations a builder
operation performed. -/
def builderNetCalls {α : Type}
    (body : (GraphRequest → Except RawError GraphResponse) → Except MCPError α × Nat)
    (net : Nat → GraphRequest → Except RawError GraphResponse)
    (dateParse : String → Option Int) (now : Int) (rand : Nat → Rat) : Nat :=
  (List.range (runBuilderOp body net dateParse now rand).invocations).foldl
    (fun acc i => acc + (body (net i)).2) 0

/-- Operation `UserTools.listUsers` end to end. -/
def listUsers (net : Nat → GraphRequest → Except RawError GraphResponse)
    (options : QueryOptions) (dateParse : String → Option Int) (now : Int)
    (rand : Nat → Rat) : RetryResult (List String) :=
  runBuilderOp (fun n => listUsersBody n options) net dateParse now rand

/-- Operation `GroupTools.listGroups` end to end. -/
def listGroups (net : Nat → GraphRequest → Except RawError GraphResponse)
    (options : QueryOptions) (dateParse : String → Option Int) (now : Int)
    (rand : Nat → Rat) : RetryResult (List String) :=
  runBuilderOp (fun n => listGroupsBody n options) net dateParse now rand

/-- Operation `ApplicationTools.listApplications` end to end. -/
def listApplications (net : Nat → GraphRequest → Except RawError GraphResponse)
    (options : QueryOptions) (dateParse : String → Option Int) (now : Int)
    (rand : Nat → Rat) : RetryResult (List String) :=
  runBuilderOp (fun n => listApplicationsBody n options) net dateParse now rand

/-- Operation `ApplicationTools.listServicePrincipals` end to end. -/
def listServicePrincipals (net : Nat → GraphRequest → Except RawError GraphResponse)
    (options : QueryOptions) (dateParse : String → Option Int) (now : Int)
    (rand : Nat → Rat) : RetryResult (List String) :=
  runBuilderOp (fun n => listServicePrincipalsBody n options) net dateParse now rand

/-- Operation `DeviceTools.listDevices` end to end. -/
def listDevices (net : Nat → GraphRequest → Except RawError GraphResponse)
    (options : QueryOptions) (dateParse : String → Option Int) (now : Int)
    (rand : Nat → Rat) : RetryResult (List String) :=
  runBuilderOp (fun n => listDevicesBody n options) net dateParse now rand

/-- Operation `GroupTools.getUserGroups` end to end. -/
def getUserGroups (net : Nat → GraphRequest → Except RawError GraphResponse)
    (userId : JsVal) (top : JsVal) (dateParse : String → Option Int) (now : Int)
    (rand : Nat → Rat) : RetryResult (List String) :=
  runBuilderOp (fun n => getUserGroupsBody n userId top) net dateParse now rand

/-- Network calls made by a `getUserGroups` run. -/
def getUserGroupsNetCalls (net : Nat → GraphRequest → Except RawError GraphResponse)
    (userId : JsVal) (top : JsVal) (dateParse : String → Option Int) (now : Int)
    (rand : Nat → Rat) : Nat :=
  builderNetCalls (fun n => getUserGroupsBody n userId top) net dateParse now rand

/-- The filter string built by `UserTools.getUserSignIns` (src/tools/users.ts
line 222): the validated userId — validated by `validateString` only, NOT
passed through `escapeODataString` — is interpolated between single quotes,
followed by the date bound (`formatODataDate` output, which contains no
single quote). -/
def getUserSignInsFilter (validatedUserId : String) (startDateStr : String) : String :=
  "userId eq " ++ sq ++ validatedUserId ++ sq ++ " and createdDateTime ge " ++ startDateStr

/-- The filter string `UserTools.searchUsers` builds from the already-escaped
term. -/
def searchUsersFilter (escapedTerm : String) : String :=
  "startswith(displayName," ++ sq ++ escapedTerm ++ sq ++ ") or startswith(givenName," ++
  sq ++ escapedTerm ++ sq ++ ") or startswith(surname," ++ sq ++ escapedTerm ++ sq ++
  ") or startswith(mail," ++ sq ++ escapedTerm ++ sq ++ ") or startswith(userPrincipalName," ++
  sq ++ escapedTerm ++ sq ++ ")"

/-- The filter `searchUsers` builds from the validated term: the term IS
passed through `escapeODataString` (src/tools/users.ts lines 124-127). -/
def searchUsersFilterOf (validatedSearchTerm : String) : String :=
  searchUsersFilter (escapeODataString validatedSearchTerm)

/-! ## Theorems -/

lemma escapeList_count (cs : List Char) :
    (escapeList cs).count squote = 2 * cs.count squote := by
  induction cs with
  | nil => rfl
  | cons c cs ih =>
      cases h : c == squote
      · simp [escapeList, List.count_append, List.count_cons, h, ih]
      · simp [escapeList, List.count_append, List.count_cons, h, ih]
        omega

lemma escapeList_filter (cs : List Char) :
    (escapeList cs).filter (fun c => !(c == squote)) =
      cs.filter (fun c => !(c == squote)) := by
  induction cs with
  | nil => rfl
  | cons c cs ih =>
      cases h : c == squote <;> simp [escapeList, List.filter_append, h, ih]

/-- Claim C9: for every input string with n single quotes, the output of
escapeODataString contains exactly 2n single quotes, and the subsequence of
non-quote characters is preserved unchanged and in order. -/
theorem claim_C9_escapeODataString (s : String) :
    countQuotes (escapeODataString s) = 2 * countQuotes s ∧
    (escapeODataString s).toList.filter (fun c => !(c == squote)) =
      s.toList.filter (fun c => !(c == squote)) := by
  refine ⟨?_, ?_⟩
  · show (escapeList s.toList).count squote = 2 * s.toList.count squote
    exact escapeList_count s.toList
  · show (escapeList s.toList).filter _ = _
    exact escapeList_filter s.toList

/-- Claim C8: validateTop returns integer inputs in [1,999] unchanged, fails
with InvalidParameter on zero, negative, non-integer or too-large numbers,
and returns the configured default on absent input. -/
theorem claim_C8_validateTop :
    (∀ (n : Int) (d : Int), 1 ≤ n → n ≤ 999 →
      validateTop (.num (n : Rat)) d 999 = .ok n) ∧
    (∀ (q : Rat) (d : Int), (q.den ≠ 1 ∨ q.num < 1 ∨ 999 < q.num) →
      errCode? (validateTop (.num q) d 999) = some .INVALID_PARAMETER) ∧
    (∀ d : Int, validateTop .undef d 999 = .ok d ∧ validateTop .null d 999 = .ok d) := by
  refine ⟨?_, ?_, fun d => ⟨rfl, rfl⟩⟩
  · intro n d h1 h2
    simp only [validateTop, Rat.den_intCast, Rat.num_intCast]
    rw [if_neg (by omega), if_neg (by omega), if_neg (by omega)]
  · intro q d h
    simp only [validateTop]
    split_ifs with h1 h2 h3 <;> simp [errCode?]
    rcases h with h | h | h <;> omega

/-- Witness for claim C8 at concrete inputs 5, 1000 and absent. -/
theorem claim_C8_validateTop_witness :
    validateTop (.num ((5 : Int) : Rat)) 100 999 = .ok 5 ∧
    errCode? (validateTop (.num ((1000 : Int) : Rat)) 100 999) = some .INVALID_PARAMETER ∧
    validateTop .undef 100 999 = .ok 100 :=
  ⟨claim_C8_validateTop.1 5 100 (by decide) (by decide),
   claim_C8_validateTop.2.1 ((1000 : Int) : Rat) 100 (by
     right; right
     simp only [Rat.num_intCast]
     decide),
   (claim_C8_validateTop.2.2 100).1⟩

lemma containsSub_head_mem {hay : List Char} {n : Char} {ns : List Char}
    (h : containsSub hay (n :: ns) = true) : n ∈ hay := by
  induction hay with
  | nil => simp [containsSub] at h
  | cons a t ih =>
      rw [containsSub, Bool.or_eq_true] at h
      rcases h with h | h
      · rw [listStartsWith, Bool.and_eq_true, beq_iff_eq] at h
        exact h.1 ▸ List.mem_cons_self a t
      · exact List.mem_cons_of_mem _ (ih h)

lemma jsWs_toLower_ne_dollar {c : Char} (h : jsWs c = true) :
    Char.toLower c ≠ Char.ofNat 36 := by
  simp only [jsWs, Bool.or_eq_true, beq_iff_eq] at h
  rcases h with ((((((h | h) | h) | h) | h) | h) | h) | h <;> subst h <;> decide

lemma jsTrimList_eq_nil_iff (cs : List Char) :
    jsTrimList cs = [] ↔ ∀ c ∈ cs, jsWs c = true := by
  constructor
  · intro h c hc
    have hsplit := List.takeWhile_append_dropWhile (p := jsWs) (l := cs)
    rw [← hsplit] at hc
    rcases List.mem_append.mp hc with h1 | h2
    · exact List.mem_takeWhile_imp h1
    · unfold jsTrimList at h
      rw [List.reverse_eq_nil_iff, List.dropWhile_eq_nil_iff] at h
      exact h c (List.mem_reverse.mpr h2)
  · intro h
    have hdrop : cs.dropWhile jsWs = [] :=
      List.dropWhile_eq_nil_iff.mpr (fun x hx => h x hx)
    simp [jsTrimList, hdrop]

lemma jsTrim_eq_empty_iff (s : String) :
    jsTrim s = "" ↔ ∀ c ∈ s.toList, jsWs c = true := by
  rw [← jsTrimList_eq_nil_iff]
  unfold jsTrim
  constructor
  · intro h
    exact congrArg String.data h
  · intro h
    rw [h]

lemma dangerous_starts_dollar {d : String} (hd : d ∈ dangerous) :
    ∃ ns, (lowerStr d).toList = Char.ofNat 36 :: ns := by
  simp only [dangerous, List.mem_cons, List.not_mem_nil, or_false] at hd
  rcases hd with rfl | rfl | rfl | rfl | rfl <;> exact ⟨_, rfl⟩

lemma dangerous_not_blank {s : String} {d : String} (hd : d ∈ dangerous)
    (hinc : jsIncludes (lowerStr s) (lowerStr d) = true) : jsTrim s ≠ "" := by
  intro hblank
  have hall := (jsTrim_eq_empty_iff s).mp hblank
  obtain ⟨ns, hns⟩ := dangerous_starts_dollar hd
  unfold jsIncludes at hinc
  rw [hns] at hinc
  have hmem := containsSub_head_mem hinc
  simp only [lowerStr] at hmem
  obtain ⟨c, hc, hlow⟩ := List.mem_map.mp hmem
  exact jsWs_toLower_ne_dollar (hall c hc) hlow

/-- Claim C7: validateFilter returns no value for absent or blank input, fails
with InvalidParameter whenever the value contains (case-insensitively, at any
position) a denylisted token, and returns non-blank token-free strings
unchanged. -/
theorem claim_C7_validateFilter :
    (validateFilter .undef = .ok none ∧ validateFilter .null = .ok none) ∧
    (∀ s : String, jsTrim s = "" → validateFilter (.str s) = .ok none) ∧
    (∀ s : String, (∃ d ∈ dangerous, jsIncludes (lowerStr s) (lowerStr d) = true) →
      errCode? (validateFilter (.str s)) = some .INVALID_PARAMETER) ∧
    (∀ s : String, jsTrim s ≠ "" →
      (∀ d ∈ dangerous, jsIncludes (lowerStr s) (lowerStr d) = false) →
      validateFilter (.str s) = .ok (some s)) := by
  refine ⟨⟨rfl, rfl⟩, ?_, ?_, ?_⟩
  · intro s h
    simp [validateFilter, h]
  · rintro s ⟨d, hd, hinc⟩
    have hnb : jsTrim s ≠ "" := dangerous_not_blank hd hinc
    have hsome : (dangerous.find? (fun d => jsIncludes (lowerStr s) (lowerStr d))).isSome := by
      rw [List.find?_isSome]
      exact ⟨d, hd, hinc⟩
    obtain ⟨d2, hfind⟩ := Option.isSome_iff_exists.mp hsome
    simp [validateFilter, hnb, hfind, errCode?]
  · intro s h1 h2
    have hnone : dangerous.find? (fun d => jsIncludes (lowerStr s) (lowerStr d)) = none :=
      List.find?_eq_none.mpr (fun d hd => by simp [h2 d hd])
    simp [validateFilter, h1, hnone]

/-- Witness for claim C7: a blank filter, a filter containing a token
case-insensitively, and a clean filter. -/
theorem claim_C7_validateFilter_witness :
    validateFilter (.str "   ") = .ok none ∧
    errCode? (validateFilter (.str "x eq $Count")) = some .INVALID_PARAMETER ∧
    validateFilter (.str "startswith(displayName,X)") =
      .ok (some "startswith(displayName,X)") :=
  ⟨claim_C7_validateFilter.2.1 "   " (by decide),
   claim_C7_validateFilter.2.2.1 "x eq $Count" ⟨"$count", by decide, by decide⟩,
   claim_C7_validateFilter.2.2.2 "startswith(displayName,X)" (by decide) (by decide)⟩

lemma retryAux_last_err {α : Type} (opts : RetryOptions) (fn : Nat → Outcome α)
    (dp : String → Option Int) (now : Int) (rand : Nat → Rat)
    (attempt invocs : Nat) (acc : List Rat) (e : Thrown)
    (hfn : fn attempt = .err e) :
    retryAux opts fn dp now rand attempt 0 invocs acc =
      ⟨.error (surfaceRetryError e), invocs + 1, acc⟩ := by
  simp [retryAux, hfn]

lemma retryAux_step_err_retryable {α : Type} (opts : RetryOptions) (fn : Nat → Outcome α)
    (dp : String → Option Int) (now : Int) (rand : Nat → Rat)
    (attempt remaining invocs : Nat) (acc : List Rat) (e : Thrown)
    (hfn : fn attempt = .err e) (hr : isRetryable e opts = true) :
    retryAux opts fn dp now rand attempt (remaining + 1) invocs acc =
      retryAux opts fn dp now rand (attempt + 1) remaining (invocs + 1)
        (acc ++ [nextDelay opts dp now rand attempt e]) := by
  simp [retryAux, hfn, hr]

lemma retryAux_step_err_nonretryable {α : Type} (opts : RetryOptions) (fn : Nat → Outcome α)
    (dp : String → Option Int) (now : Int) (rand : Nat → Rat)
    (attempt remaining invocs : Nat) (acc : List Rat) (e : Thrown)
    (hfn : fn attempt = .err e) (hr : isRetryable e opts = false) :
    retryAux opts fn dp now rand attempt (remaining + 1) invocs acc =
      ⟨.error (surfaceRetryError e), invocs + 1, acc⟩ := by
  simp [retryAux, hfn, hr]

lemma retryAux_sleeps_prefix {α : Type} (opts : RetryOptions) (fn : Nat → Outcome α)
    (dp : String → Option Int) (now : Int) (rand : Nat → Rat) :
    ∀ (remaining attempt invocs : Nat) (acc : List Rat),
      ∃ t, (retryAux opts fn dp now rand attempt remaining invocs acc).sleeps = acc ++ t := by
  intro remaining
  induction remaining with
  | zero =>
      intro attempt invocs acc
      cases hfn : fn attempt with
      | ok a => exact ⟨[], by simp [retryAux, hfn]⟩
      | err e => exact ⟨[], by simp [retryAux, hfn]⟩
  | succ r ih =>
      intro attempt invocs acc
      cases hfn : fn attempt with
      | ok a => exact ⟨[], by simp [retryAux, hfn]⟩
      | err e =>
          cases hr : isRetryable e opts with
          | false => exact ⟨[], by simp [retryAux, hfn, hr]⟩
          | true =>
              obtain ⟨t, ht⟩ := ih (attempt + 1) (invocs + 1)
                (acc ++ [nextDelay opts dp now rand attempt e])
              exact ⟨nextDelay opts dp now rand attempt e :: t, by
                rw [retryAux_step_err_retryable opts fn dp now rand attempt r invocs acc e hfn hr,
                  ht, List.append_assoc]
                rfl⟩

/-- Claim C4: an operation failing every invocation with an HTTP 503 failure
(status 503, no vendor envelope) is invoked exactly 4 times by
retryWithBackoff with maxRetries = 3 and then surfaces a
GRAPH_API_ERROR-classified MCPError. -/
theorem claim_C4_retry_503_exhausts {α : Type} (errs : Nat → RawError)
    (h : ∀ i, (errs i).respStatus = some 503 ∧ (errs i).respError = none)
    (dateParse : String → Option Int) (now : Int) (rand : Nat → Rat) :
    (retryWithBackoff (α := α) DEFAULT_RETRY_OPTIONS
        (fun i => .err (.raw (errs i))) dateParse now rand).invocations = 4 ∧
    errCode? (retryWithBackoff (α := α) DEFAULT_RETRY_OPTIONS
        (fun i => .err (.raw (errs i))) dateParse now rand).result =
      some .GRAPH_API_ERROR := by
  have hret : ∀ i, isRetryable (.raw (errs i)) DEFAULT_RETRY_OPTIONS = true := by
    intro i
    simp [isRetryable, DEFAULT_RETRY_OPTIONS, (h i).1]
  have hclass : handleGraphErrorRaw (errs 3) =
      ⟨"Microsoft Graph API server error", .GRAPH_API_ERROR⟩ := by
    simp [handleGraphErrorRaw, (h 3).1, (h 3).2]
  have hstart : retryWithBackoff (α := α) DEFAULT_RETRY_OPTIONS
      (fun i => .err (.raw (errs i))) dateParse now rand =
      retryAux DEFAULT_RETRY_OPTIONS (fun i => .err (.raw (errs i)))
        dateParse now rand 0 3 0 [] := rfl
  rw [hstart,
    retryAux_step_err_retryable _ _ _ _ _ 0 2 0 [] _ rfl (hret 0),
    retryAux_step_err_retryable _ _ _ _ _ 1 1 1 _ _ rfl (hret 1),
    retryAux_step_err_retryable _ _ _ _ _ 2 0 2 _ _ rfl (hret 2),
    retryAux_last_err _ _ _ _ _ 3 3 _ _ rfl]
  exact ⟨rfl, by simp [surfaceRetryError, hclass, errCode?]⟩

/-- Witness for claim C4: the constant bare-503 failure. -/
theorem claim_C4_retry_503_exhausts_witness :
    (retryWithBackoff (α := Unit) DEFAULT_RETRY_OPTIONS
        (fun _ => .err (.raw ⟨none, some 503, none, none, none⟩))
        (fun _ => none) 0 (fun _ => 0)).invocations = 4 ∧
    errCode? (retryWithBackoff (α := Unit) DEFAULT_RETRY_OPTIONS
        (fun _ => .err (.raw ⟨none, some 503, none, none, none⟩))
        (fun _ => none) 0 (fun _ => 0)).result = some .GRAPH_API_ERROR :=
  claim_C4_retry_503_exhausts (fun _ => ⟨none, some 503, none, none, none⟩)
    (fun _ => ⟨rfl, rfl⟩) (fun _ => none) 0 (fun _ => 0)

/-- Claim C5: a failure with HTTP status 400 and vendor code InvalidRequest
is not retryable: the operation is invoked exactly once, no sleep is
performed, and an INVALID_PARAMETER-classified MCPError surfaces. -/
theorem claim_C5_retry_invalidRequest {α : Type} (fn : Nat → Outcome α)
    (ge : GraphErrorEnvelope) (ra : Option HeaderVal) (c m : Option String)
    (hcode : ge.code = some "InvalidRequest")
    (hfn : fn 0 = .err (.raw ⟨some ge, some 400, ra, c, m⟩))
    (dateParse : String → Option Int) (now : Int) (rand : Nat → Rat) :
    (retryWithBackoff DEFAULT_RETRY_OPTIONS fn dateParse now rand).invocations = 1 ∧
    (retryWithBackoff DEFAULT_RETRY_OPTIONS fn dateParse now rand).sleeps = [] ∧
    errCode? (retryWithBackoff DEFAULT_RETRY_OPTIONS fn dateParse now rand).result =
      some .INVALID_PARAMETER := by
  have hnr : isRetryable (.raw ⟨some ge, some 400, ra, c, m⟩) DEFAULT_RETRY_OPTIONS = false := by
    simp [isRetryable, DEFAULT_RETRY_OPTIONS]
  have hstart : retryWithBackoff DEFAULT_RETRY_OPTIONS fn dateParse now rand =
      retryAux DEFAULT_RETRY_OPTIONS fn dateParse now rand 0 3 0 [] := rfl
  rw [hstart, retryAux_step_err_nonretryable _ _ _ _ _ 0 2 0 [] _ hfn hnr]
  refine ⟨rfl, rfl, ?_⟩
  simp [surfaceRetryError, handleGraphErrorRaw, mapGraphErrorCode, hcode, errCode?]

/-- Witness for claim C5 at a concrete 400/InvalidRequest failure. -/
theorem claim_C5_retry_invalidRequest_witness :
    (retryWithBackoff (α := Unit) DEFAULT_RETRY_OPTIONS
        (fun _ => .err (.raw ⟨some ⟨some "InvalidRequest", "bad"⟩, some 400, none, none, none⟩))
        (fun _ => none) 0 (fun _ => 0)).invocations = 1 ∧
    (retryWithBackoff (α := Unit) DEFAULT_RETRY_OPTIONS
        (fun _ => .err (.raw ⟨some ⟨some "InvalidRequest", "bad"⟩, some 400, none, none, none⟩))
        (fun _ => none) 0 (fun _ => 0)).sleeps = [] ∧
    errCode? (retryWithBackoff (α := Unit) DEFAULT_RETRY_OPTIONS
        (fun _ => .err (.raw ⟨some ⟨some "InvalidRequest", "bad"⟩, some 400, none, none, none⟩))
        (fun _ => none) 0 (fun _ => 0)).result = some .INVALID_PARAMETER :=
  claim_C5_retry_invalidRequest _ ⟨some "InvalidRequest", "bad"⟩ none none none
    rfl rfl (fun _ => none) 0 (fun _ => 0)

/-- Claim C6: a retry-after header carrying the number 2 forces a delay of
exactly 2000 ms, for every attempt number and every
baseDelay/maxDelay/jitter configuration, and a run whose first failure
carries that header sleeps 2000 ms before the second attempt. -/
theorem claim_C6_retryAfter_2000 :
    (∀ (opts : RetryOptions) (dateParse : String → Option Int) (now : Int)
        (rand : Nat → Rat) (attempt : Nat) (r : RawError),
      r.respRetryAfter = some (.num 2) →
      nextDelay opts dateParse now rand attempt (.raw r) = 2000) ∧
    (∀ (α : Type) (opts : RetryOptions) (fn : Nat → Outcome α) (r : RawError)
        (dateParse : String → Option Int) (now : Int) (rand : Nat → Rat),
      r.respRetryAfter = some (.num 2) →
      isRetryable (.raw r) opts = true →
      1 ≤ opts.maxRetries →
      fn 0 = .err (.raw r) →
      (retryWithBackoff opts fn dateParse now rand).sleeps.head? = some 2000) := by
  have hdelay : ∀ (opts : RetryOptions) (dateParse : String → Option Int) (now : Int)
      (rand : Nat → Rat) (attempt : Nat) (r : RawError),
      r.respRetryAfter = some (.num 2) →
      nextDelay opts dateParse now rand attempt (.raw r) = 2000 := by
    intro opts dateParse now rand attempt r hra
    simp [nextDelay, getRetryAfterDelay, hra]
  refine ⟨hdelay, ?_⟩
  intro α opts fn r dateParse now rand hra hret hmax hfn
  obtain ⟨k, hk⟩ : ∃ k, opts.maxRetries = k + 1 :=
    ⟨opts.maxRetries - 1, by omega⟩
  have hstart : retryWithBackoff opts fn dateParse now rand =
      retryAux opts fn dateParse now rand 0 opts.maxRetries 0 [] := rfl
  rw [hstart, hk,
    retryAux_step_err_retryable _ _ _ _ _ 0 k 0 [] _ hfn hret]
  obtain ⟨t, ht⟩ := retryAux_sleeps_prefix opts fn dateParse now rand k 1 1
    ([] ++ [nextDelay opts dateParse now rand 0 (.raw r)])
  rw [ht, hdelay opts dateParse now rand 0 r hra]
  rfl

/-- Witness for claim C6: a concrete retryable failure carrying
retry-after 2. -/
theorem claim_C6_retryAfter_2000_witness :
    nextDelay DEFAULT_RETRY_OPTIONS (fun _ => none) 0 (fun _ => 0) 0
      (.raw ⟨none, some 503, some (.num 2), none, none⟩) = 2000 ∧
    (retryWithBackoff (α := Unit) DEFAULT_RETRY_OPTIONS
        (fun _ => .err (.raw ⟨none, some 503, some (.num 2), none, none⟩))
        (fun _ => none) 0 (fun _ => 0)).sleeps.head? = some 2000 :=
  ⟨claim_C6_retryAfter_2000.1 DEFAULT_RETRY_OPTIONS (fun _ => none) 0 (fun _ => 0) 0
      ⟨none, some 503, some (.num 2), none, none⟩ rfl,
   claim_C6_retryAfter_2000.2 Unit DEFAULT_RETRY_OPTIONS
      (fun _ => .err (.raw ⟨none, some 503, some (.num 2), none, none⟩))
      ⟨none, some 503, some (.num 2), none, none⟩ (fun _ => none) 0 (fun _ => 0)
      rfl (by decide) (by decide) rfl⟩

/-- Claim C10: the maxDelay ceiling binds only the exponential-backoff
delay (calculateDelay never exceeds maxDelay), while a server retry-after
hint is used uncapped: a retryable failure hinting 3600 seconds makes the
run sleep 3600000 ms before the next attempt even under the default
maxDelay of 30000 ms. -/
theorem claim_C10_retryAfter_uncapped :
    (∀ (attempt : Nat) (base maxd : Rat) (jit : Bool) (rand : Rat),
      calculateDelay attempt base maxd jit rand ≤ maxd) ∧
    DEFAULT_RETRY_OPTIONS.maxDelay = 30000 ∧
    (∀ (α : Type) (fn : Nat → Outcome α) (r : RawError)
        (dateParse : String → Option Int) (now : Int) (rand : Nat → Rat),
      r.respRetryAfter = some (.num 3600) →
      isRetryable (.raw r) DEFAULT_RETRY_OPTIONS = true →
      fn 0 = .err (.raw r) →
      (retryWithBackoff DEFAULT_RETRY_OPTIONS fn dateParse now rand).sleeps.head? =
        some 3600000) := by
  refine ⟨?_, rfl, ?_⟩
  · intro attempt base maxd jit rand
    exact min_le_right _ _
  · intro α fn r dateParse now rand hra hret hfn
    have hstart : retryWithBackoff DEFAULT_RETRY_OPTIONS fn dateParse now rand =
        retryAux DEFAULT_RETRY_OPTIONS fn dateParse now rand 0 3 0 [] := rfl
    rw [hstart, retryAux_step_err_retryable _ _ _ _ _ 0 2 0 [] _ hfn hret]
    obtain ⟨t, ht⟩ := retryAux_sleeps_prefix DEFAULT_RETRY_OPTIONS fn dateParse now rand 2 1 1
      ([] ++ [nextDelay DEFAULT_RETRY_OPTIONS dateParse now rand 0 (.raw r)])
    rw [ht]
    have : nextDelay DEFAULT_RETRY_OPTIONS dateParse now rand 0 (.raw r) = 3600000 := by
      simp [nextDelay, getRetryAfterDelay, hra]
    rw [this]
    rfl

/-- Witness for claim C10: a concrete 429 failure hinting 3600 seconds. -/
theorem claim_C10_retryAfter_uncapped_witness :
    (retryWithBackoff (α := Unit) DEFAULT_RETRY_OPTIONS
        (fun _ => .err (.raw ⟨none, some 429, some (.num 3600), none, none⟩))
        (fun _ => none) 0 (fun _ => 0)).sleeps.head? = some 3600000 :=
  claim_C10_retryAfter_uncapped.2.2 Unit
    (fun _ => .err (.raw ⟨none, some 429, some (.num 3600), none, none⟩))
    ⟨none, some 429, some (.num 3600), none, none⟩ (fun _ => none) 0 (fun _ => 0)
    rfl (by decide) rfl

lemma retryAux_step_ok {α : Type} (opts : RetryOptions) (fn : Nat → Outcome α)
    (dp : String → Option Int) (now : Int) (rand : Nat → Rat)
    (attempt remaining invocs : Nat) (acc : List Rat) (a : α)
    (hfn : fn attempt = .ok a) :
    retryAux opts fn dp now rand attempt (remaining + 1) invocs acc =
      ⟨.ok a, invocs + 1, acc⟩ := by
  simp [retryAux, hfn]

/-- Claim C1 (code bug): `get_user_groups` with top = 1000 fails before any
network call (the net-call count is 0 and the operation is invoked once),
but the surfaced MCPError carries code UNKNOWN_ERROR — the InvalidParameter
error thrown by validateTop is re-wrapped by handleGraphError in the tool
catch block, which preserves only its message — not the INVALID_PARAMETER
the claim states. -/
theorem claim_C1_getUserGroups_top1000
    (net : Nat → GraphRequest → Except RawError GraphResponse)
    (dateParse : String → Option Int) (now : Int) (rand : Nat → Rat) :
    errCode? (getUserGroups net (.str "x") (.num 1000) dateParse now rand).result =
      some .UNKNOWN_ERROR ∧
    errMsg? (getUserGroups net (.str "x") (.num 1000) dateParse now rand).result =
      some "top cannot exceed 999" ∧
    (getUserGroups net (.str "x") (.num 1000) dateParse now rand).invocations = 1 ∧
    getUserGroupsNetCalls net (.str "x") (.num 1000) dateParse now rand = 0 := by
  have hbody : ∀ n, getUserGroupsBody n (.str "x") (.num 1000) =
      (.error ⟨"top cannot exceed 999", .UNKNOWN_ERROR⟩, 0) := fun n => rfl
  have hfn : (fun i => outcomeOfBody (getUserGroupsBody (net i) (.str "x") (.num 1000))) 0 =
      Outcome.err (.mcp ⟨"top cannot exceed 999", .UNKNOWN_ERROR⟩) := by
    show outcomeOfBody (getUserGroupsBody (net 0) (.str "x") (.num 1000)) = _
    rw [hbody (net 0)]
    rfl
  have hm : isRetryable (.mcp ⟨"top cannot exceed 999", .UNKNOWN_ERROR⟩)
      DEFAULT_RETRY_OPTIONS = false := by decide
  have hrun : getUserGroups net (.str "x") (.num 1000) dateParse now rand =
      ⟨.error ⟨"top cannot exceed 999", .UNKNOWN_ERROR⟩, 1, []⟩ := by
    have hstart : getUserGroups net (.str "x") (.num 1000) dateParse now rand =
        retryAux DEFAULT_RETRY_OPTIONS
          (fun i => outcomeOfBody (getUserGroupsBody (net i) (.str "x") (.num 1000)))
          dateParse now rand 0 3 0 [] := rfl
    rw [hstart, retryAux_step_err_nonretryable _ _ _ _ _ 0 2 0 [] _ hfn hm]
    rfl
  have hrun2 : runBuilderOp (fun n => getUserGroupsBody n (.str "x") (.num 1000))
      net dateParse now rand =
      ⟨.error ⟨"top cannot exceed 999", .UNKNOWN_ERROR⟩, 1, []⟩ := hrun
  refine ⟨by rw [hrun]; rfl, by rw [hrun]; rfl, by rw [hrun], ?_⟩
  show builderNetCalls (fun n => getUserGroupsBody n (.str "x") (.num 1000))
      net dateParse now rand = 0
  simp [builderNetCalls, hrun2, hbody]

/-- Claim C2 (code bug): `getUserSignIns` interpolates the validated userId
into the string-literal position of its filter WITHOUT escapeODataString:
for a userId holding one single quote the built filter contains 3 single
quotes (two enclosing plus the raw one) instead of the 4 that doubling
would give, and differs from the filter built from the escaped userId. By
contrast `searchUsers` does escape: its filter for the same term contains
20 single quotes (5 clauses x (2 enclosing + the doubled pair)). -/
theorem claim_C2_getUserSignIns_unescaped :
    countQuotes (getUserSignInsFilter (String.mk ['x', squote]) "D") = 3 ∧
    countQuotes (getUserSignInsFilter (escapeODataString (String.mk ['x', squote])) "D") = 4 ∧
    getUserSignInsFilter (String.mk ['x', squote]) "D" ≠
      getUserSignInsFilter (escapeODataString (String.mk ['x', squote])) "D" ∧
    countQuotes (searchUsersFilterOf (String.mk ['x', squote])) = 20 := by
  decide

/-- Claim C3 counterexample: `listUsers` with a succeeding remote call whose
page envelope lacks the value field does NOT return the empty list —
validateResponse rejects the envelope and the operation fails (the
INVALID_RESPONSE error is further rewrapped as UNKNOWN_ERROR by the tool
catch block). -/
theorem claim_C3_listUsers_missing_value_counterexample :
    (listUsers (fun _ _ => .ok ⟨none⟩) emptyOptions (fun _ => none) 0
        (fun _ => 0)).result ≠ .ok [] ∧
    errCode? (listUsers (fun _ _ => .ok ⟨none⟩) emptyOptions (fun _ => none) 0
        (fun _ => 0)).result = some .UNKNOWN_ERROR := by
  have h : errCode? (listUsers (fun _ _ => .ok ⟨none⟩) emptyOptions (fun _ => none) 0
      (fun _ => 0)).result = some .UNKNOWN_ERROR := by decide
  refine ⟨fun hc => ?_, h⟩
  rw [hc] at h
  simp [errCode?] at h

/-- Claim C3 amended: when the remote call succeeds with an envelope lacking
the value field, the list operations that unwrap without validating the
envelope — listGroups, listApplications, listServicePrincipals, listDevices,
and the relationship fetcher getUserGroups — return the empty list, while
listUsers (whose body calls validateResponse) instead fails. -/
theorem claim_C3_missing_value_amended
    (net : Nat → GraphRequest → Except RawError GraphResponse)
    (hnet : ∀ req, net 0 req = .ok ⟨none⟩)
    (dateParse : String → Option Int) (now : Int) (rand : Nat → Rat) :
    (listGroups net emptyOptions dateParse now rand).result = .ok [] ∧
    (listApplications net emptyOptions dateParse now rand).result = .ok [] ∧
    (listServicePrincipals net emptyOptions dateParse now rand).result = .ok [] ∧
    (listDevices net emptyOptions dateParse now rand).result = .ok [] ∧
    (getUserGroups net (.str "x") .undef dateParse now rand).result = .ok [] ∧
    errCode? (listUsers net emptyOptions dateParse now rand).result =
      some .UNKNOWN_ERROR := by
  have hg : ∀ path, listCollectionBody path false (net 0) emptyOptions = (.ok [], 1) := by
    intro path
    simp [listCollectionBody, emptyOptions, hnet]
    rfl
  have hlist : ∀ (body : (GraphRequest → Except RawError GraphResponse) →
      Except MCPError (List String) × Nat),
      body (net 0) = (.ok [], 1) →
      (runBuilderOp body net dateParse now rand).result = .ok [] := by
    intro body hbody
    have hstart : runBuilderOp body net dateParse now rand =
        retryAux DEFAULT_RETRY_OPTIONS (fun i => outcomeOfBody (body (net i)))
          dateParse now rand 0 3 0 [] := rfl
    rw [hstart, retryAux_step_ok _ _ _ _ _ 0 2 0 [] []
      (by show outcomeOfBody (body (net 0)) = _; rw [hbody]; rfl)]
  have hug : getUserGroupsBody (net 0) (.str "x") .undef = (.ok [], 1) := by
    simp [getUserGroupsBody, hnet]
    rfl
  have huser : listUsersBody (net 0) emptyOptions =
      (.error ⟨"Response does not contain expected value array", .UNKNOWN_ERROR⟩, 1) := by
    simp [listUsersBody, listCollectionBody, emptyOptions, hnet, validateResponse,
      handleGraphError]
    rfl
  have huserRun : errCode? (listUsers net emptyOptions dateParse now rand).result =
      some .UNKNOWN_ERROR := by
    have hstart : listUsers net emptyOptions dateParse now rand =
        retryAux DEFAULT_RETRY_OPTIONS
          (fun i => outcomeOfBody (listUsersBody (net i) emptyOptions))
          dateParse now rand 0 3 0 [] := rfl
    rw [hstart, retryAux_step_err_nonretryable _ _ _ _ _ 0 2 0 []
      (.mcp ⟨"Response does not contain expected value array", .UNKNOWN_ERROR⟩)
      (by show outcomeOfBody (listUsersBody (net 0) emptyOptions) = _; rw [huser]; rfl)
      (by decide)]
    rfl
  exact ⟨hlist _ (hg "/groups"), hlist _ (hg "/applications"),
    hlist _ (hg "/servicePrincipals"), hlist _ (hg "/devices"),
    hlist _ hug, huserRun⟩

/-- Witness for claim C3 amended: the network oracle that always succeeds
with a value-less envelope. -/
theorem claim_C3_missing_value_amended_witness :
    (listGroups (fun _ _ => .ok ⟨none⟩) emptyOptions (fun _ => none) 0
        (fun _ => 0)).result = .ok [] ∧
    (listApplications (fun _ _ => .ok ⟨none⟩) emptyOptions (fun _ => none) 0
        (fun _ => 0)).result = .ok [] ∧
    (listServicePrincipals (fun _ _ => .ok ⟨none⟩) emptyOptions (fun _ => none) 0
        (fun _ => 0)).result = .ok [] ∧
    (listDevices (fun _ _ => .ok ⟨none⟩) emptyOptions (fun _ => none) 0
        (fun _ => 0)).result = .ok [] ∧
    (getUserGroups (fun _ _ => .ok ⟨none⟩) (.str "x") .undef (fun _ => none) 0
        (fun _ => 0)).result = .ok [] ∧
    errCode? (listUsers (fun _ _ => .ok ⟨none⟩) emptyOptions (fun _ => none) 0
        (fun _ => 0)).result = some .UNKNOWN_ERROR :=
  claim_C3_missing_value_amended (fun _ _ => .ok ⟨none⟩) (fun _ => rfl)
    (fun _ => none) 0 (fun _ => 0)

end EntraSpec
